import Mathlib

/-!
Verification development for the bilal-tube backend, centred on its
credential and session authority: the user model with its password hook
(src/unnamed/part_011), the token issuer (src/src/utils/generateTokens.js),
the authentication gate (src/src/middlewares/auth.middleware.js), and the
session lifecycle handlers, which exist in two revisions in the repository:
src/src/controllers/user.controller.js (namespace UserController below) and
src/src/controllers/auth.controllers.js (namespace AuthControllers below).
-/

/-- A JavaScript value as seen by the auth code: strings, numeric ids, or
undefined (the result of reading an absent object property). -/
inductive JsVal where
  | str : String → JsVal
  | num : Nat → JsVal
  | undef : JsVal
deriving DecidableEq

/-- Property read on a JS object represented as a key-value list: an absent
key yields undefined, as in JavaScript. -/
def jsGet (fields : List (String × JsVal)) (key : String) : JsVal :=
  match fields.find? (fun kv => kv.1 == key) with
  | some kv => kv.2
  | none => JsVal.undef

/-- Modelled from the spec: the jsonwebtoken library is external to the
repository. A signed token is self-contained (section 4.2 of the spec):
its payload, the secret it was signed with, its issue time and its expiry
window. Two tokens are equal exactly when all of these agree, which models
string equality of the encoded JWTs. -/
structure Jwt where
  payload : List (String × JsVal)
  secret : String
  iat : Nat
  expiresIn : Nat
deriving DecidableEq

/-- Modelled from the spec: jwt.sign of the jsonwebtoken library. -/
def jwtSign (payload : List (String × JsVal)) (secret : String)
    (iat expiresIn : Nat) : Jwt :=
  ⟨payload, secret, iat, expiresIn⟩

/-- Modelled from the spec: jwt.verify of the jsonwebtoken library checks
the signature and the embedded expiry and otherwise throws; the error
carries the library message. -/
def Jwt.verify (t : Jwt) (secret : String) (now : Nat) :
    Except String (List (String × JsVal)) :=
  if t.secret ≠ secret then Except.error "invalid signature"
  else if t.iat + t.expiresIn ≤ now then Except.error "jwt expired"
  else Except.ok t.payload

/-- The environment configuration consumed by the token issuer and the
authentication gate: ACCESS_TOKEN_SECRET, ACCESS_TOKEN_EXPIRY,
REFRESH_TOKEN_SECRET, REFRESH_TOKEN_EXPIRY. -/
structure Env where
  accessTokenSecret : String
  accessTokenExpiry : Nat
  refreshTokenSecret : String
  refreshTokenExpiry : Nat
deriving DecidableEq

/-- An account document of the user schema in src/unnamed/part_011.
The auth-relevant fields are kept; avatar, coverImage, watchHistory and the
timestamps are opaque to every operation verified here and are omitted.
The password field holds whatever string was last assigned to it; the
pre-save hook (MDoc.save below) replaces it by its hash when it was
modified, so persisted accounts hold the digest. -/
structure Account where
  id : Nat
  username : String
  email : String
  fullName : String
  password : String
  refreshToken : Option Jwt
deriving DecidableEq

/-- The JS property view of a hydrated user document, with the keys the
user schema defines (none of the omitted keys is named userName either:
the schema keys are _id, username, email, fullName, avatar, coverImage,
watchHistory, password, refreshToken, createdAt, updatedAt). -/
def Account.fields (a : Account) : List (String × JsVal) :=
  [("_id", JsVal.num a.id),
   ("username", JsVal.str a.username),
   ("email", JsVal.str a.email),
   ("fullName", JsVal.str a.fullName),
   ("password", JsVal.str a.password),
   ("refreshToken", match a.refreshToken with
     | some t => JsVal.str t.secret
     | none => JsVal.undef)]

/-- Modelled from the spec: the argon2 library is external to the
repository. It is modelled as an ideal salted one-way digest: hashing
prefixes a fixed tag, so the digest function is injective and
verification recomputes and compares (section 4.1 of the spec). -/
def argonHash (plaintext : String) : String :=
  "argon2id-digest:" ++ plaintext

/-- Modelled from the spec: argon.verify recomputes the digest of the
candidate and compares it with the stored digest. -/
def argonVerify (digest candidate : String) : Bool :=
  digest == argonHash candidate

/-- The isValidPassword instance method of the user schema
(src/unnamed/part_011): verify the candidate against the stored digest. -/
def isValidPassword (a : Account) (candidate : String) : Bool :=
  argonVerify a.password candidate

/-- A mongoose document in memory: the account data together with the set
of paths assigned since hydration, which is what isModified reports. -/
structure MDoc where
  acc : Account
  modifiedPaths : List String
deriving DecidableEq

/-- Hydrating a stored account yields a document with no modified path. -/
def MDoc.ofAccount (a : Account) : MDoc :=
  ⟨a, []⟩

/-- Assignment user.password = p marks the password path modified. -/
def MDoc.setPassword (d : MDoc) (p : String) : MDoc :=
  ⟨⟨d.acc.id, d.acc.username, d.acc.email, d.acc.fullName, p,
    d.acc.refreshToken⟩, "password" :: d.modifiedPaths⟩

/-- Assignment user.refreshToken = t marks the refreshToken path
modified. -/
def MDoc.setRefreshToken (d : MDoc) (t : Option Jwt) : MDoc :=
  ⟨⟨d.acc.id, d.acc.username, d.acc.email, d.acc.fullName, d.acc.password,
    t⟩, "refreshToken" :: d.modifiedPaths⟩

/-- The isModified check of mongoose. -/
def MDoc.isModified (d : MDoc) (path : String) : Bool :=
  d.modifiedPaths.contains path

/-- Saving a document runs the pre-save hook of src/unnamed/part_011: when
the password path was modified the password field is replaced by its argon
hash, otherwise the document is persisted as is. -/
def MDoc.save (d : MDoc) : Account :=
  if d.isModified "password" then
    ⟨d.acc.id, d.acc.username, d.acc.email, d.acc.fullName,
     argonHash d.acc.password, d.acc.refreshToken⟩
  else d.acc

/-- Modelled from the spec: the trim builtin of JS strings (also the trim
setter of mongoose), whitespace stripped from both ends, written over the
character list. -/
def jsTrim (s : String) : String :=
  String.mk
    (((s.data.dropWhile Char.isWhitespace).reverse.dropWhile
      Char.isWhitespace).reverse)

/-- Modelled from the spec: the lowercase setter of mongoose, written
over the character list. -/
def jsToLower (s : String) : String :=
  String.mk (s.data.map Char.toLower)

/-- User.create of the user schema: every field of a fresh document counts
as modified, so the pre-save hook hashes the plaintext password. The
schema lowercases and trims the username and trims the email and full
name (the lowecase option on the email field is misspelled in the source
and therefore inert). -/
def createUser (id : Nat) (username email fullName password : String) :
    Account :=
  MDoc.save ⟨⟨id, jsTrim (jsToLower username), jsTrim email,
    jsTrim fullName, password, none⟩,
    ["username", "email", "fullName", "password"]⟩

/-- The account store. -/
abbrev DB := List Account

/-- User.findOne on the email field. -/
def findByEmail (db : DB) (email : String) : Option Account :=
  db.find? (fun a => a.email == email)

/-- User.findById. -/
def findById (db : DB) (id : Nat) : Option Account :=
  db.find? (fun a => a.id == id)

/-- User.findOne with an or-query on username and email, as in the
duplicate check of registerUser (the query values are compared raw, the
lowercasing setter of the schema applies on save only). -/
def findByUsernameOrEmail (db : DB) (username email : String) :
    Option Account :=
  db.find? (fun a => a.username == username || a.email == email)

/-- Persisting a saved document: every stored account with the document id
is replaced by the saved state (single-document atomic update). -/
def updateById (db : DB) (id : Nat) (saved : Account) : DB :=
  db.map (fun a => if a.id = id then saved else a)

/-- The generateAccessToken of src/src/utils/generateTokens.js: it signs
a payload built from the properties _id, email and userName of the user
document, with the access secret and expiry. The property read is the
JS one: a key the document does not carry yields undefined. -/
def generateAccessToken (env : Env) (user : List (String × JsVal))
    (now : Nat) : Jwt :=
  jwtSign
    [("_id", jsGet user "_id"),
     ("email", jsGet user "email"),
     ("userName", jsGet user "userName")]
    env.accessTokenSecret now env.accessTokenExpiry

/-- The generateRefreshToken of src/src/utils/generateTokens.js: the
payload carries only the _id property, signed with the refresh secret and
expiry. -/
def generateRefreshToken (env : Env) (user : List (String × JsVal))
    (now : Nat) : Jwt :=
  jwtSign [("_id", jsGet user "_id")]
    env.refreshTokenSecret now env.refreshTokenExpiry

/-- The generateAccessToken revision of src/unnamed/part_004, which reads
the username property (the key the schema actually defines). -/
def generateAccessTokenV2 (env : Env) (user : List (String × JsVal))
    (now : Nat) : Jwt :=
  jwtSign
    [("_id", jsGet user "_id"),
     ("email", jsGet user "email"),
     ("username", jsGet user "username")]
    env.accessTokenSecret now env.accessTokenExpiry

/-- Projection dropping the listed keys: models both the select string
"-password -refreshToken" of a query and the delete statements applied to
user.toObject() before responding. -/
def withoutKeys (fields : List (String × JsVal)) (excluded : List String) :
    List (String × JsVal) :=
  fields.filter (fun kv => !(excluded.contains kv.1))

/-- JS truthiness test of an optional string input: undefined and the
empty string are falsy. -/
def jsFalsy : Option String → Bool
  | none => true
  | some s => s.isEmpty

/-- The field check of registerUser: some(field => field?.trim() === "").
An absent field short-circuits to undefined, which is not the empty
string, so only a present all-whitespace field triggers it. -/
def fieldTrimEmpty : Option String → Bool
  | none => false
  | some s => jsTrim s == ""

/-- The JS or-chaining of two optional tokens, cookie first. -/
def jsOrTok : Option Jwt → Option Jwt → Option Jwt
  | some t, _ => some t
  | none, b => b

/-- An upload result returned by the external media host. -/
structure CloudFile where
  secureUrl : String
  publicId : String
deriving DecidableEq

/-- Response of a login handler: status, message, the two cookies it sets
(none when it sets no cookie) and the sanitized user body. -/
structure LoginResp where
  status : Nat
  message : String
  accessCookie : Option Jwt
  refreshCookie : Option Jwt
  bodyUser : Option (List (String × JsVal))
deriving DecidableEq

/-- Response of a refresh handler: status, message, cookies set and the
tokens returned in the body. -/
structure RefreshResp where
  status : Nat
  message : String
  accessCookie : Option Jwt
  refreshCookie : Option Jwt
  bodyAccessToken : Option Jwt
  bodyRefreshToken : Option Jwt
deriving DecidableEq

/-- Response of the logout handler. -/
structure LogoutResp where
  status : Nat
  message : String
  clearedCookies : Bool
deriving DecidableEq

/-- Response of a register handler. -/
structure RegResp where
  status : Nat
  message : String
deriving DecidableEq

/-- Outcome of a change-password handler: either a JSON response was sent,
or an error escaped the handler (thrown out of the catch block). -/
inductive CPResult where
  | resp : Nat → String → CPResult
  | thrown : Nat → String → CPResult
deriving DecidableEq

/-- The ApiError carried status and message. -/
structure ApiErr where
  statusCode : Nat
  message : String
deriving DecidableEq

/-- Outcome of a login handler whose failure path can break: either a
JSON response was delivered, or an error escaped the handler and no
response was sent. -/
inductive LoginOutcome where
  | resp : LoginResp → LoginOutcome
  | thrown : String → LoginOutcome
deriving DecidableEq

/-- logOutUser, identical in both controller revisions: findByIdAndUpdate
with an unset of refreshToken (no save hook runs on findByIdAndUpdate),
then 200 with both cookies cleared; an absent account is a no-op. -/
def logOutUser (db : DB) (userId : Nat) : LogoutResp × DB :=
  (⟨200, "User logged out successfully", true⟩,
   db.map (fun a =>
     if a.id = userId then
       ⟨a.id, a.username, a.email, a.fullName, a.password, none⟩
     else a))

namespace UserController

/-- The body of loginUser of src/src/controllers/user.controller.js up
to its catch block: the 400 and 401 conditions are thrown ApiErrors;
success issues both tokens, persists the refresh token through save
(pre-save hook runs with only the refreshToken path modified) and sends
the 200 response with both cookies and the user stripped of password and
refreshToken inside the try block. -/
def loginUserInner (env : Env) (db : DB) (email password : Option String)
    (now : Nat) : Except ApiErr (LoginResp × DB) :=
  if jsFalsy email || jsFalsy password then
    Except.error ⟨400, "Email and password are required"⟩
  else
    match findByEmail db (email.getD "") with
    | none => Except.error ⟨401, "Invalid credentials"⟩
    | some user =>
      if isValidPassword user (password.getD "") then
        let accessToken := generateAccessToken env user.fields now
        let refreshToken := generateRefreshToken env user.fields now
        let saved :=
          MDoc.save ((MDoc.ofAccount user).setRefreshToken (some refreshToken))
        Except.ok
          (⟨200, "User logged in successfully", some accessToken,
            some refreshToken,
            some (withoutKeys saved.fields ["password", "refreshToken"])⟩,
           updateById db user.id saved)
      else Except.error ⟨401, "Invalid credentials"⟩

/-- loginUser of src/src/controllers/user.controller.js: the handler is
declared async (req, res) with no next parameter in both snapshots of
that file, yet its catch block calls next(error). Every thrown ApiError
therefore raises ReferenceError inside the catch and escapes the
handler: no failure response (and no cookie) is ever delivered, and the
store is untouched since every throw precedes the save. Only the
success response is sent, from inside the try block. -/
def loginUser (env : Env) (db : DB) (email password : Option String)
    (now : Nat) : LoginOutcome × DB :=
  match loginUserInner env db email password now with
  | Except.ok r => (LoginOutcome.resp r.1, r.2)
  | Except.error _ =>
    (LoginOutcome.thrown "ReferenceError: next is not defined", db)

/-- refreshAccessToken of src/src/controllers/user.controller.js. A
missing token is 401; a jwt.verify failure is caught by the handler and
answered 401 with the library message; an unresolved account or a token
different from the persisted one is 401 with no state change; on equality
both tokens are rotated and the new refresh token persisted. -/
def refreshAccessToken (env : Env) (db : DB)
    (cookieToken bodyToken : Option Jwt) (now : Nat) : RefreshResp × DB :=
  match jsOrTok cookieToken bodyToken with
  | none => (⟨401, "Refresh token is required", none, none, none, none⟩, db)
  | some incoming =>
    match incoming.verify env.refreshTokenSecret now with
    | Except.error msg => (⟨401, msg, none, none, none, none⟩, db)
    | Except.ok payload =>
      match jsGet payload "_id" with
      | JsVal.num i =>
        match findById db i with
        | none =>
          (⟨401, "Invalid refresh token", none, none, none, none⟩, db)
        | some user =>
          if some incoming = user.refreshToken then
            let accessToken := generateAccessToken env user.fields now
            let newRefreshToken := generateRefreshToken env user.fields now
            let saved := MDoc.save
              ((MDoc.ofAccount user).setRefreshToken (some newRefreshToken))
            (⟨200, "Access token refreshed successfully",
              some accessToken, some newRefreshToken,
              some accessToken, some newRefreshToken⟩,
             updateById db user.id saved)
          else
            (⟨401, "Invalid refresh token", none, none, none, none⟩, db)
      | _ => (⟨401, "Invalid refresh token", none, none, none, none⟩, db)

/-- The body of changePassword of src/src/controllers/user.controller.js
up to its catch block: resolve the caller, 404 if vanished, verify the
old password, 401 on mismatch, else assign the new password (marking the
password path modified, so the save hook re-hashes) and respond 200. -/
def changePasswordInner (db : DB) (userId : Nat)
    (oldPassword currentPassword : String) :
    Except ApiErr (CPResult × DB) :=
  match findById db userId with
  | none => Except.error ⟨404, "User not found"⟩
  | some user =>
    if isValidPassword user oldPassword then
      let saved := MDoc.save ((MDoc.ofAccount user).setPassword currentPassword)
      Except.ok (CPResult.resp 200 "Password updated successfully.",
        updateById db userId saved)
    else Except.error ⟨401, "Invalid old password"⟩

/-- changePassword of src/src/controllers/user.controller.js: the catch
block swallows every thrown ApiError, including its own 404 and 401, and
throws ApiError(500, Internal Server Error) out of the handler instead. -/
def changePassword (db : DB) (userId : Nat)
    (oldPassword currentPassword : String) : CPResult × DB :=
  match changePasswordInner db userId oldPassword currentPassword with
  | Except.ok r => r
  | Except.error _ => (CPResult.thrown 500 "Internal Server Error", db)

/-- registerUser of src/src/controllers/user.controller.js: whitespace
field check, duplicate check answered with ApiError(400, ...) through the
error middleware, avatar requirement, the two external uploads (their
results are inputs here), then account creation. -/
def registerUser (db : DB)
    (username email fullName password : Option String)
    (avatarLocalPath _coverImageLocalPath : Option String)
    (avatarUpload coverImageUpload : Option CloudFile) (newId : Nat) :
    RegResp × DB :=
  if [username, email, fullName, password].any fieldTrimEmpty then
    (⟨400, "All fields are required"⟩, db)
  else
    match findByUsernameOrEmail db (username.getD "") (email.getD "") with
    | some _ =>
      (⟨400, "User with username " ++ username.getD "" ++ " or email " ++
        email.getD "" ++ " already exists."⟩, db)
    | none =>
      match avatarLocalPath with
      | none => (⟨400, "Avatar is required"⟩, db)
      | some _ =>
        match avatarUpload with
        | none => (⟨500, "Error uploading avatar"⟩, db)
        | some _ =>
          match coverImageUpload with
          | none => (⟨500, "Error uploading coverImage"⟩, db)
          | some _ =>
            (⟨201, "User created successfully"⟩,
             db ++ [createUser newId (username.getD "") (email.getD "")
               (fullName.getD "") (password.getD "")])

end UserController

namespace AuthControllers

/-- loginUser of src/src/controllers/auth.controllers.js. Unlike the
user.controller.js revision, an unknown email is answered 404 User not
found, while a failed password verification is answered 401. -/
def loginUser (env : Env) (db : DB) (email password : Option String)
    (now : Nat) : LoginResp × DB :=
  if jsFalsy email || jsFalsy password then
    (⟨400, "All fields are required.", none, none, none⟩, db)
  else
    match findByEmail db (email.getD "") with
    | none => (⟨404, "User not found", none, none, none⟩, db)
    | some user =>
      if isValidPassword user (password.getD "") then
        let accessToken := generateAccessToken env user.fields now
        let refreshToken := generateRefreshToken env user.fields now
        let saved :=
          MDoc.save ((MDoc.ofAccount user).setRefreshToken (some refreshToken))
        (⟨200, "User logged in successfully", some accessToken,
          some refreshToken,
          some (withoutKeys saved.fields ["password", "refreshToken"])⟩,
         updateById db user.id saved)
      else (⟨401, "Invalid credentials", none, none, none⟩, db)

/-- refreshAccessToken of src/src/controllers/auth.controllers.js: same
flow as the user.controller.js revision except that a missing token is
401 Unauthorized request and a jwt.verify throw reaches the catch block,
which answers 500 Internal server error. -/
def refreshAccessToken (env : Env) (db : DB)
    (cookieToken bodyToken : Option Jwt) (now : Nat) : RefreshResp × DB :=
  match jsOrTok cookieToken bodyToken with
  | none => (⟨401, "Unauthorized request", none, none, none, none⟩, db)
  | some incoming =>
    match incoming.verify env.refreshTokenSecret now with
    | Except.error _ =>
      (⟨500, "Internal server error", none, none, none, none⟩, db)
    | Except.ok payload =>
      match jsGet payload "_id" with
      | JsVal.num i =>
        match findById db i with
        | none =>
          (⟨401, "Invalid refresh token", none, none, none, none⟩, db)
        | some user =>
          if some incoming = user.refreshToken then
            let accessToken := generateAccessToken env user.fields now
            let newRefreshToken := generateRefreshToken env user.fields now
            let saved := MDoc.save
              ((MDoc.ofAccount user).setRefreshToken (some newRefreshToken))
            (⟨200, "Access token refreshed successfully",
              some accessToken, some newRefreshToken,
              some accessToken, some newRefreshToken⟩,
             updateById db user.id saved)
          else
            (⟨401, "Invalid refresh token", none, none, none, none⟩, db)
      | _ => (⟨401, "Invalid refresh token", none, none, none, none⟩, db)

/-- changePassword of src/src/controllers/auth.controllers.js: the 404
and 401 cases are answered directly as responses, success is 200. -/
def changePassword (db : DB) (userId : Nat)
    (oldPassword currentPassword : String) : CPResult × DB :=
  match findById db userId with
  | none => (CPResult.resp 404 "User not found", db)
  | some user =>
    if isValidPassword user oldPassword then
      let saved := MDoc.save ((MDoc.ofAccount user).setPassword currentPassword)
      (CPResult.resp 200 "Password updated successfully.",
       updateById db userId saved)
    else (CPResult.resp 401 "Invalid password", db)

/-- registerUser of src/src/controllers/auth.controllers.js: duplicate
check answered 409. The source omits a return after its 400 whitespace
response; the first response written is the one delivered, modelled here
as returning it. The creation call passes the userName key, which the
schema of src/unnamed/part_011 does not define: strict mode drops it, the
required username validation fails, and the catch answers 500, so this
revision never persists a new account. -/
def registerUser (db : DB)
    (userName email fullName password : Option String)
    (avatarLocalPath : Option String)
    (avatarUpload _coverImageUpload : Option CloudFile) :
    RegResp × DB :=
  if [userName, email, fullName, password].any fieldTrimEmpty then
    (⟨400, "All fields are required."⟩, db)
  else
    match findByUsernameOrEmail db (userName.getD "") (email.getD "") with
    | some _ => (⟨409, "User already exists"⟩, db)
    | none =>
      match avatarLocalPath with
      | none => (⟨500, "Internal server error"⟩, db)
      | some _ =>
        match avatarUpload with
        | none => (⟨500, "Internal server error"⟩, db)
        | some _ => (⟨500, "Internal server error"⟩, db)

end AuthControllers

/-- Result of the authentication gate: a rejection, or the resolved user
attached to the request context. -/
inductive AuthResult where
  | unauthorized : Nat → String → AuthResult
  | ok : List (String × JsVal) → AuthResult
deriving DecidableEq

/-- authMiddleware of src/src/middlewares/auth.middleware.js: take the
access token from the cookie or the bearer header, verify it with the
access secret (any throw is caught and answered 401), resolve the
embedded id with the password and refreshToken fields excluded from the
projection, 401 when the account vanished, else attach the projection.
The store is only read. -/
def authMiddleware (env : Env) (db : DB)
    (cookieToken headerToken : Option Jwt) (now : Nat) : AuthResult × DB :=
  match jsOrTok cookieToken headerToken with
  | none => (AuthResult.unauthorized 401 "Unauthorized request", db)
  | some tok =>
    match tok.verify env.accessTokenSecret now with
    | Except.error _ => (AuthResult.unauthorized 401 "Unauthorized request", db)
    | Except.ok payload =>
      match jsGet payload "_id" with
      | JsVal.num i =>
        match findById db i with
        | none => (AuthResult.unauthorized 401 "Invalid access token", db)
        | some user =>
          (AuthResult.ok (withoutKeys user.fields ["password", "refreshToken"]),
           db)
      | _ => (AuthResult.unauthorized 401 "Unauthorized request", db)

/-- A session-lifecycle operation of the state machine of the spec,
section 4.5, as implemented by the user.controller.js revision. -/
inductive Op where
  | login : String → String → Nat → Op
  | refresh : Option Jwt → Option Jwt → Nat → Op
  | logout : Nat → Op
deriving DecidableEq

/-- Store effect of one operation. -/
def stepOp (env : Env) (db : DB) : Op → DB
  | Op.login e p now => (UserController.loginUser env db (some e) (some p) now).2
  | Op.refresh c b now => (UserController.refreshAccessToken env db c b now).2
  | Op.logout uid => (logOutUser db uid).2

/-- Store effect of a sequence of operations. -/
def runOps (env : Env) : DB → List Op → DB
  | db, [] => db
  | db, op :: ops => runOps env (stepOp env db op) ops

/-- A key listed as excluded is not found in the projected document. -/
theorem withoutKeys_find_none (fields : List (String × JsVal))
    (excluded : List String) (k : String) (hk : k ∈ excluded) :
    (withoutKeys fields excluded).find? (fun kv => kv.1 == k) = none := by
  induction fields with
  | nil => rfl
  | cons kv rest ih =>
    unfold withoutKeys at ih ⊢
    rw [List.filter_cons]
    by_cases h : excluded.contains kv.1
    · simp only [h, Bool.not_true, if_neg]
      exact ih
    · have hne : kv.1 ≠ k := by
        intro heq
        exact h (by rw [heq]; exact List.elem_eq_true_of_mem hk)
      simp only [h, Bool.not_false, if_pos]
      rw [List.find?_cons_of_neg]
      · exact ih
      · simp [hne]

/-- Reading an excluded key on the projected document yields undefined. -/
theorem jsGet_withoutKeys_excluded (fields : List (String × JsVal))
    (excluded : List String) (k : String) (hk : k ∈ excluded) :
    jsGet (withoutKeys fields excluded) k = JsVal.undef := by
  unfold jsGet
  rw [withoutKeys_find_none fields excluded k hk]

/-- The modelled digest function is injective. -/
theorem argonHash_inj (p q : String) (h : argonHash p = argonHash q) :
    p = q := by
  unfold argonHash at h
  have hd := congrArg String.data h
  simp only [String.data_append] at hd
  exact String.ext (List.append_cancel_left hd)

/-- Saving after only a refresh-token assignment persists the account
with the new token and an untouched password field. -/
theorem save_setRefreshToken (a : Account) (t : Option Jwt) :
    MDoc.save ((MDoc.ofAccount a).setRefreshToken t) =
      ⟨a.id, a.username, a.email, a.fullName, a.password, t⟩ := rfl

/-- Saving after a password assignment persists the hash of the new
password and an untouched refresh token. -/
theorem save_setPassword (a : Account) (p : String) :
    MDoc.save ((MDoc.ofAccount a).setPassword p) =
      ⟨a.id, a.username, a.email, a.fullName, argonHash p,
       a.refreshToken⟩ := rfl

/-- Fixture environment for concrete evaluations. -/
def env0 : Env := ⟨"access-secret", 60, "refresh-secret", 3600⟩

/-- Fixture account before any login. -/
def alice : Account :=
  ⟨1, "alice", "a@example.com", "Alice Doe", argonHash "Secret123", none⟩

/-- Refresh token issued to the fixture account at time zero. -/
def rtok0 : Jwt := generateRefreshToken env0 alice.fields 0

/-- Fixture account with the refresh token persisted. -/
def aliceLoggedIn : Account :=
  ⟨1, "alice", "a@example.com", "Alice Doe", argonHash "Secret123",
   some rtok0⟩

/-- Fixture store holding the logged-in account. -/
def db0 : DB := [aliceLoggedIn]

/-- Access token issued to the fixture account at time zero. -/
def atok0 : Jwt := generateAccessToken env0 alice.fields 0

/-- The projection the gate attaches for the fixture account. -/
def aliceProjected : List (String × JsVal) :=
  withoutKeys aliceLoggedIn.fields ["password", "refreshToken"]

/-- C6: the authentication gate mutates no account state, and the account
object it attaches to the request context contains neither the password
hash nor the refresh token. -/
theorem auth_gate_readonly_projection (env : Env) (db : DB)
    (cookieToken headerToken : Option Jwt) (now : Nat) :
    (authMiddleware env db cookieToken headerToken now).2 = db ∧
    ∀ u, (authMiddleware env db cookieToken headerToken now).1 =
        AuthResult.ok u →
      jsGet u "password" = JsVal.undef ∧
      jsGet u "refreshToken" = JsVal.undef := by
  constructor
  · unfold authMiddleware
    repeat' split
    all_goals rfl
  · intro u hu
    unfold authMiddleware at hu
    repeat' split at hu
    all_goals cases hu
    constructor
    · exact jsGet_withoutKeys_excluded _ _ _ (by simp)
    · exact jsGet_withoutKeys_excluded _ _ _ (by simp)

/-- Closed instance of C6 at the fixture store and a valid access
token. -/
theorem auth_gate_readonly_projection_witness :
    (authMiddleware env0 db0 (some atok0) none 5).2 = db0 ∧
    (jsGet aliceProjected "password" = JsVal.undef ∧
     jsGet aliceProjected "refreshToken" = JsVal.undef) :=
  ⟨(auth_gate_readonly_projection env0 db0 (some atok0) none 5).1,
   (auth_gate_readonly_projection env0 db0 (some atok0) none 5).2
     aliceProjected (by decide)⟩

/-- C7: the refresh token payload embeds only the account identifier, as
the claim states, but the access token payload does not embed the handle:
the issuer of src/src/utils/generateTokens.js reads the userName property
while the schema of src/unnamed/part_011 stores the handle under
username, so the embedded value is undefined. The part_004 revision of
the issuer reads username and does embed the handle. -/
theorem access_token_payload_misses_handle (env : Env) (a : Account)
    (now : Nat) :
    (generateAccessToken env a.fields now).payload =
      [("_id", JsVal.num a.id), ("email", JsVal.str a.email),
       ("userName", JsVal.undef)] ∧
    (generateRefreshToken env a.fields now).payload =
      [("_id", JsVal.num a.id)] ∧
    (generateAccessTokenV2 env a.fields now).payload =
      [("_id", JsVal.num a.id), ("email", JsVal.str a.email),
       ("username", JsVal.str a.username)] :=
  ⟨rfl, rfl, rfl⟩

/-- C3: a password stored through the pre-save hash hook verifies against
the original password and against no different password. -/
theorem password_hash_roundtrip (id : Nat) (u e f p q : String)
    (hne : q ≠ p) :
    isValidPassword (createUser id u e f p) p = true ∧
    isValidPassword (createUser id u e f p) q = false := by
  have hcreate : (createUser id u e f p).password = argonHash p := rfl
  constructor
  · simp [isValidPassword, argonVerify, hcreate]
  · simp only [isValidPassword, argonVerify, hcreate,
      beq_eq_false_iff_ne, ne_eq]
    exact fun h => hne (argonHash_inj p q h).symm

/-- Closed instance of C3. -/
theorem password_hash_roundtrip_witness :
    isValidPassword (createUser 1 "alice" "a@example.com" "Alice"
      "Secret123") "Secret123" = true ∧
    isValidPassword (createUser 1 "alice" "a@example.com" "Alice"
      "Secret123") "Wrong" = false :=
  password_hash_roundtrip 1 "alice" "a@example.com" "Alice" "Secret123"
    "Wrong" (by decide)

/-- A findById hit is a member carrying the looked-up id. -/
theorem findById_mem_id (db : DB) (i : Nat) (a : Account)
    (h : findById db i = some a) : a ∈ db ∧ a.id = i := by
  unfold findById at h
  refine ⟨List.mem_of_find?_eq_some h, ?_⟩
  have hp := List.find?_some h
  simpa using hp

/-- After persisting a saved document over a resolvable id, resolving
that id yields the saved document. -/
theorem findById_updateById (db : DB) (i : Nat) (s : Account)
    (hs : s.id = i) :
    ∀ a, findById db i = some a →
      findById (updateById db i s) i = some s := by
  induction db with
  | nil => intro a h; cases h
  | cons b rest ih =>
    intro a hfind
    unfold findById at hfind ⊢
    unfold updateById
    rw [List.map_cons]
    by_cases hb : b.id = i
    · rw [if_pos hb]
      rw [List.find?_cons_of_pos _ (by simp [hs])]
    · rw [if_neg hb]
      rw [List.find?_cons_of_neg _ (by simp [hb])] at hfind
      rw [List.find?_cons_of_neg _ (by simp [hb])]
      exact ih a hfind

/-- A structurally valid unexpired token passes jwt.verify. -/
theorem jwtVerify_ok (t : Jwt) (secret : String) (now : Nat)
    (hsec : t.secret = secret) (hexp : now < t.iat + t.expiresIn) :
    t.verify secret now = Except.ok t.payload := by
  unfold Jwt.verify
  have h1 : ¬ t.secret ≠ secret := by simp [hsec]
  have h2 : ¬ (t.iat + t.expiresIn ≤ now) := Nat.not_le.mpr hexp
  rw [if_neg h1, if_neg h2]

/-- C1: a structurally valid refresh token that resolves to an account is
honoured only when it equals the persisted one: otherwise both handler
revisions answer 401 with no tokens and no store change; on equality the
user.controller.js revision answers 200 with rotated tokens and persists
the new refresh token, and a 200 answer implies the equality. -/
theorem refresh_rejects_superseded_token (env : Env) (db : DB) (t : Jwt)
    (now i : Nat) (a : Account)
    (hsec : t.secret = env.refreshTokenSecret)
    (hexp : now < t.iat + t.expiresIn)
    (hid : jsGet t.payload "_id" = JsVal.num i)
    (hfind : findById db i = some a) :
    (a.refreshToken ≠ some t →
      UserController.refreshAccessToken env db (some t) none now =
        (⟨401, "Invalid refresh token", none, none, none, none⟩, db) ∧
      AuthControllers.refreshAccessToken env db (some t) none now =
        (⟨401, "Invalid refresh token", none, none, none, none⟩, db)) ∧
    (a.refreshToken = some t →
      (UserController.refreshAccessToken env db (some t) none now).1 =
        ⟨200, "Access token refreshed successfully",
         some (generateAccessToken env a.fields now),
         some (generateRefreshToken env a.fields now),
         some (generateAccessToken env a.fields now),
         some (generateRefreshToken env a.fields now)⟩ ∧
      findById
          (UserController.refreshAccessToken env db (some t) none now).2
          i =
        some ⟨a.id, a.username, a.email, a.fullName, a.password,
          some (generateRefreshToken env a.fields now)⟩) ∧
    ((UserController.refreshAccessToken env db (some t) none now).1.status
        = 200 →
      a.refreshToken = some t) := by
  have hver := jwtVerify_ok t env.refreshTokenSecret now hsec hexp
  have hida := findById_mem_id db i a hfind
  have hne401 : ∀ _ : ¬ (some t = a.refreshToken),
      UserController.refreshAccessToken env db (some t) none now =
        (⟨401, "Invalid refresh token", none, none, none, none⟩, db) ∧
      AuthControllers.refreshAccessToken env db (some t) none now =
        (⟨401, "Invalid refresh token", none, none, none, none⟩, db) := by
    intro h
    refine ⟨?_, ?_⟩
    · simp only [UserController.refreshAccessToken, jsOrTok, hver, hid,
        hfind]
      rw [if_neg h]
    · simp only [AuthControllers.refreshAccessToken, jsOrTok, hver, hid,
        hfind]
      rw [if_neg h]
  have hpos : ∀ _ : some t = a.refreshToken,
      UserController.refreshAccessToken env db (some t) none now =
        (⟨200, "Access token refreshed successfully",
          some (generateAccessToken env a.fields now),
          some (generateRefreshToken env a.fields now),
          some (generateAccessToken env a.fields now),
          some (generateRefreshToken env a.fields now)⟩,
         updateById db a.id ⟨a.id, a.username, a.email, a.fullName,
           a.password,
           some (generateRefreshToken env a.fields now)⟩) := by
    intro h
    simp only [UserController.refreshAccessToken, jsOrTok, hver, hid,
      hfind]
    rw [if_pos h, save_setRefreshToken]
  refine ⟨?_, ?_, ?_⟩
  · intro hne
    exact hne401 (fun h => hne h.symm)
  · intro heq
    rw [hpos heq.symm]
    refine ⟨rfl, ?_⟩
    show findById (updateById db a.id
      ⟨a.id, a.username, a.email, a.fullName, a.password,
       some (generateRefreshToken env a.fields now)⟩) i = _
    rw [hida.2]
    exact findById_updateById db i _ rfl a hfind

  · intro h200
    by_cases hcond : some t = a.refreshToken
    · exact hcond.symm
    · rw [(hne401 hcond).1] at h200
      simp at h200

/-- A refresh token superseded by a later rotation for the fixture
account. -/
def rtokOld : Jwt := generateRefreshToken env0 alice.fields 100

/-- Closed instance of C1: the fixture store persists the rotation of
time 0, and the structurally valid token of time 100 is rejected by both
revisions with no store change. -/
theorem refresh_rejects_superseded_token_witness :
    UserController.refreshAccessToken env0 db0 (some rtokOld) none 150 =
      (⟨401, "Invalid refresh token", none, none, none, none⟩, db0) ∧
    AuthControllers.refreshAccessToken env0 db0 (some rtokOld) none 150 =
      (⟨401, "Invalid refresh token", none, none, none, none⟩, db0) :=
  (refresh_rejects_superseded_token env0 db0 rtokOld 150 1 aliceLoggedIn
    (by decide) (by decide) (by decide) (by decide)).1 (by decide)

/-- C9: the user.controller.js changePassword swallows its own 404 and
401 ApiErrors: its catch block converts any of them into a thrown
ApiError 500, contradicting the 401 and 404 its documentation states;
only the 200 success survives. The auth.controllers.js revision answers
200, 401 and 404 as the claim states. -/
theorem change_password_status_swallowed :
    (UserController.changePassword db0 1 "WrongOld" "NewSecret").1 =
      CPResult.thrown 500 "Internal Server Error" ∧
    (UserController.changePassword db0 2 "Secret123" "NewSecret").1 =
      CPResult.thrown 500 "Internal Server Error" ∧
    (UserController.changePassword db0 1 "Secret123" "NewSecret").1 =
      CPResult.resp 200 "Password updated successfully." ∧
    (AuthControllers.changePassword db0 1 "WrongOld" "NewSecret").1 =
      CPResult.resp 401 "Invalid password" ∧
    (AuthControllers.changePassword db0 2 "Secret123" "NewSecret").1 =
      CPResult.resp 404 "User not found" ∧
    (AuthControllers.changePassword db0 1 "Secret123" "NewSecret").1 =
      CPResult.resp 200 "Password updated successfully." := by
  decide

/-- C8: a successful change of password responds 200, leaves the
persisted refresh token unchanged, and a refresh with the token issued
before the change still succeeds. -/
theorem change_password_preserves_session (env : Env) (db : DB)
    (uid : Nat) (a : Account) (t : Jwt) (oldPw newPw : String) (now : Nat)
    (hfind : findById db uid = some a)
    (hpw : isValidPassword a oldPw = true)
    (htok : a.refreshToken = some t)
    (hsec : t.secret = env.refreshTokenSecret)
    (hexp : now < t.iat + t.expiresIn)
    (hid : jsGet t.payload "_id" = JsVal.num uid) :
    (UserController.changePassword db uid oldPw newPw).1 =
      CPResult.resp 200 "Password updated successfully." ∧
    findById (UserController.changePassword db uid oldPw newPw).2 uid =
      some ⟨a.id, a.username, a.email, a.fullName, argonHash newPw,
        some t⟩ ∧
    (UserController.refreshAccessToken env
        (UserController.changePassword db uid oldPw newPw).2
        (some t) none now).1.status = 200 := by
  have hida := findById_mem_id db uid a hfind
  have hcp : UserController.changePassword db uid oldPw newPw =
      (CPResult.resp 200 "Password updated successfully.",
       updateById db uid ⟨a.id, a.username, a.email, a.fullName,
         argonHash newPw, some t⟩) := by
    unfold UserController.changePassword UserController.changePasswordInner
    rw [hfind]
    simp only [hpw, if_true, save_setPassword, htok]
  rw [hcp]
  have hfind2 : findById
      (updateById db uid ⟨a.id, a.username, a.email, a.fullName,
        argonHash newPw, some t⟩) uid =
      some ⟨a.id, a.username, a.email, a.fullName, argonHash newPw,
        some t⟩ :=
    findById_updateById db uid _ hida.2 a hfind
  have hver := jwtVerify_ok t env.refreshTokenSecret now hsec hexp
  refine ⟨rfl, hfind2, ?_⟩
  simp only [UserController.refreshAccessToken, jsOrTok, hver, hid,
    hfind2, ite_true, if_true]

/-- Closed instance of C8 at the fixture store. -/
theorem change_password_preserves_session_witness :
    (UserController.changePassword db0 1 "Secret123" "NewSecret").1 =
      CPResult.resp 200 "Password updated successfully." ∧
    findById (UserController.changePassword db0 1 "Secret123"
        "NewSecret").2 1 =
      some ⟨1, "alice", "a@example.com", "Alice Doe",
        argonHash "NewSecret", some rtok0⟩ ∧
    (UserController.refreshAccessToken env0
        (UserController.changePassword db0 1 "Secret123" "NewSecret").2
        (some rtok0) none 5).1.status = 200 :=
  change_password_preserves_session env0 db0 1 aliceLoggedIn rtok0
    "Secret123" "NewSecret" 5 (by decide) (by decide) (by decide)
    (by decide) (by decide) (by decide)

/-- C4 counterexample: in the auth.controllers.js revision a login with
both fields present whose email matches no account fails with 404, which
is not a 401-class failure and distinguishes the unknown email from a
wrong password. -/
theorem login_unknown_email_404_counterexample :
    (AuthControllers.loginUser env0 db0 (some "b@example.com")
      (some "Secret123") 5).1.status = 404 ∧
    ¬ (AuthControllers.loginUser env0 db0 (some "b@example.com")
      (some "Secret123") 5).1.status = 401 := by
  decide

/-- C4 (amended): with both fields present, the auth.controllers.js
login answers 404 for an unknown email and 401 for a wrong password,
distinguishing the two; the user.controller.js login delivers no failure
response at all: both failures produce the identical escaped
ReferenceError, because its catch block calls next without declaring it,
so that revision still does not distinguish the two failures but answers
neither with a 401. Neither revision sets cookies or changes account
state on a failed login. -/
theorem login_failure_unified_vs_split (env : Env) (db : DB)
    (e p : String) (now : Nat) (he : e ≠ "") (hp : p ≠ "") :
    (findByEmail db e = none →
      UserController.loginUser env db (some e) (some p) now =
        (LoginOutcome.thrown "ReferenceError: next is not defined", db) ∧
      AuthControllers.loginUser env db (some e) (some p) now =
        (⟨404, "User not found", none, none, none⟩, db)) ∧
    (∀ a, findByEmail db e = some a → isValidPassword a p = false →
      UserController.loginUser env db (some e) (some p) now =
        (LoginOutcome.thrown "ReferenceError: next is not defined", db) ∧
      AuthControllers.loginUser env db (some e) (some p) now =
        (⟨401, "Invalid credentials", none, none, none⟩, db)) := by
  have hfe : jsFalsy (some e) = false := by
    simp only [jsFalsy]
    rw [← Bool.not_eq_true]
    intro hb
    exact he ((String.isEmpty_iff e).mp hb)
  have hfp : jsFalsy (some p) = false := by
    simp only [jsFalsy]
    rw [← Bool.not_eq_true]
    intro hb
    exact hp ((String.isEmpty_iff p).mp hb)
  constructor
  · intro hnone
    constructor
    · simp [UserController.loginUser, UserController.loginUserInner, hfe,
        hfp, hnone]
    · simp [AuthControllers.loginUser, hfe, hfp, hnone]
  · intro a hsome hbad
    constructor
    · simp [UserController.loginUser, UserController.loginUserInner, hfe,
        hfp, hsome, hbad]
    · simp [AuthControllers.loginUser, hfe, hfp, hsome, hbad]

/-- Closed instance of the amended C4: a wrong password at the fixture
store escapes the user.controller.js handler as a ReferenceError while
the auth.controllers.js handler answers 401. -/
theorem login_failure_unified_vs_split_witness :
    UserController.loginUser env0 db0 (some "a@example.com")
        (some "WrongPw") 5 =
      (LoginOutcome.thrown "ReferenceError: next is not defined", db0) ∧
    AuthControllers.loginUser env0 db0 (some "a@example.com")
        (some "WrongPw") 5 =
      (⟨401, "Invalid credentials", none, none, none⟩, db0) :=
  (login_failure_unified_vs_split env0 db0 "a@example.com" "WrongPw" 5
    (by decide) (by decide)).2 aliceLoggedIn (by decide) (by decide)

/-- C5 counterexample: in the user.controller.js revision a registration
whose handle duplicates an existing account fails with status 400, not
409; no account is created. -/
theorem register_duplicate_400_counterexample :
    (UserController.registerUser db0 (some "alice") (some "b@example.com")
      (some "Bob") (some "Pw123456") (some "/tmp/avatar.png")
      (some "/tmp/cover.png") (some ⟨"http-avatar", "pid-a"⟩)
      (some ⟨"http-cover", "pid-c"⟩) 2).1.status = 400 ∧
    ¬ (UserController.registerUser db0 (some "alice")
      (some "b@example.com") (some "Bob") (some "Pw123456")
      (some "/tmp/avatar.png") (some "/tmp/cover.png")
      (some ⟨"http-avatar", "pid-a"⟩)
      (some ⟨"http-cover", "pid-c"⟩) 2).1.status = 409 ∧
    (UserController.registerUser db0 (some "alice") (some "b@example.com")
      (some "Bob") (some "Pw123456") (some "/tmp/avatar.png")
      (some "/tmp/cover.png") (some ⟨"http-avatar", "pid-a"⟩)
      (some ⟨"http-cover", "pid-c"⟩) 2).2 = db0 := by
  decide

/-- C5 (amended): a registration whose handle or email duplicates an
existing account creates no account and fails, with 409 Conflict in the
auth.controllers.js revision but status 400 in the user.controller.js
revision. -/
theorem register_duplicate_no_creation (db : DB)
    (u e f pw : String) (x : Account)
    (hu : jsTrim u ≠ "") (he : jsTrim e ≠ "") (hf : jsTrim f ≠ "")
    (hpw : jsTrim pw ≠ "")
    (hdup : findByUsernameOrEmail db u e = some x)
    (ap cp : Option String) (au cu : Option CloudFile) (newId : Nat) :
    AuthControllers.registerUser db (some u) (some e) (some f) (some pw)
        ap au cu =
      (⟨409, "User already exists"⟩, db) ∧
    UserController.registerUser db (some u) (some e) (some f) (some pw)
        ap cp au cu newId =
      (⟨400, "User with username " ++ u ++ " or email " ++ e ++
        " already exists."⟩, db) := by
  have hone : ∀ s : String, jsTrim s ≠ "" →
      fieldTrimEmpty (some s) = false := by
    intro s hs
    simp [fieldTrimEmpty, hs]
  have hany : ([some u, some e, some f,
      some pw].any fieldTrimEmpty) = false := by
    simp [List.any_cons, List.any_nil, hone u hu, hone e he, hone f hf,
      hone pw hpw]
  constructor
  · simp [AuthControllers.registerUser, hany, hdup]
  · simp [UserController.registerUser, hany, hdup]

/-- Closed instance of the amended C5 at the fixture store. -/
theorem register_duplicate_no_creation_witness :
    AuthControllers.registerUser db0 (some "alice") (some "b@example.com")
        (some "Bob") (some "Pw123456") (some "/tmp/avatar.png")
        (some ⟨"http-avatar", "pid-a"⟩) (some ⟨"http-cover", "pid-c"⟩) =
      (⟨409, "User already exists"⟩, db0) ∧
    UserController.registerUser db0 (some "alice") (some "b@example.com")
        (some "Bob") (some "Pw123456") (some "/tmp/avatar.png")
        (some "/tmp/cover.png") (some ⟨"http-avatar", "pid-a"⟩)
        (some ⟨"http-cover", "pid-c"⟩) 2 =
      (⟨400,
        "User with username alice or email b@example.com already exists."⟩,
       db0) :=
  register_duplicate_no_creation db0 "alice" "b@example.com" "Bob"
    "Pw123456" aliceLoggedIn (by decide) (by decide) (by decide)
    (by decide) (by decide) (some "/tmp/avatar.png")
    (some "/tmp/cover.png") (some ⟨"http-avatar", "pid-a"⟩)
    (some ⟨"http-cover", "pid-c"⟩) 2

/-- Inversion of a successful jwt.verify: the decoded payload is the
token payload. -/
theorem jwtVerify_ok_payload (t : Jwt) (secret : String) (now : Nat)
    (payload : List (String × JsVal))
    (h : t.verify secret now = Except.ok payload) :
    payload = t.payload := by
  unfold Jwt.verify at h
  split at h
  · cases h
  · split at h
    · cases h
    · cases h; rfl

/-- Branch characterization of the user.controller.js login body: every
failure is a thrown ApiError, and success resolves an account by email
with the rotation response and store update. -/
theorem loginUserInner_cases (env : Env) (db : DB) (e p : Option String)
    (now : Nat) :
    (∃ err, UserController.loginUserInner env db e p now =
      Except.error err) ∨
    (∃ a, findByEmail db (e.getD "") = some a ∧
      UserController.loginUserInner env db e p now =
        Except.ok (⟨200, "User logged in successfully",
          some (generateAccessToken env a.fields now),
          some (generateRefreshToken env a.fields now),
          some (withoutKeys
            (Account.fields ⟨a.id, a.username, a.email, a.fullName,
              a.password, some (generateRefreshToken env a.fields now)⟩)
            ["password", "refreshToken"])⟩,
         updateById db a.id ⟨a.id, a.username, a.email, a.fullName,
           a.password,
           some (generateRefreshToken env a.fields now)⟩)) := by
  unfold UserController.loginUserInner
  split
  · left; exact ⟨_, rfl⟩
  · split
    · left; exact ⟨_, rfl⟩
    · rename_i a heq
      split
      · right
        refine ⟨a, heq, ?_⟩
        simp only [save_setRefreshToken]
      · left; exact ⟨_, rfl⟩

/-- Branch characterization of the user.controller.js login handler:
either the thrown ApiError escaped as the ReferenceError of the broken
catch block and the store is untouched, or an account was resolved by
email and both the delivered response and the store update are the
success ones. -/
theorem loginUser_cases (env : Env) (db : DB) (e p : Option String)
    (now : Nat) :
    ((UserController.loginUser env db e p now).1 =
       LoginOutcome.thrown "ReferenceError: next is not defined" ∧
     (UserController.loginUser env db e p now).2 = db) ∨
    (∃ a, findByEmail db (e.getD "") = some a ∧
      UserController.loginUser env db e p now =
        (LoginOutcome.resp ⟨200, "User logged in successfully",
          some (generateAccessToken env a.fields now),
          some (generateRefreshToken env a.fields now),
          some (withoutKeys
            (Account.fields ⟨a.id, a.username, a.email, a.fullName,
              a.password, some (generateRefreshToken env a.fields now)⟩)
            ["password", "refreshToken"])⟩,
         updateById db a.id ⟨a.id, a.username, a.email, a.fullName,
           a.password,
           some (generateRefreshToken env a.fields now)⟩)) := by
  rcases loginUserInner_cases env db e p now with ⟨err, herr⟩ |
      ⟨a, hfind, hok⟩
  · left
    unfold UserController.loginUser
    rw [herr]
    exact ⟨rfl, rfl⟩
  · right
    refine ⟨a, hfind, ?_⟩
    unfold UserController.loginUser
    rw [hok]

/-- Branch characterization of the user.controller.js refresh: either
the response status is not 200 and the store is untouched, or the
presented token decoded to an id, resolved to an account whose persisted
token equals it, and both the response and the store update are the
rotation ones. -/
theorem refreshAccessToken_cases (env : Env) (db : DB)
    (ct bt : Option Jwt) (now : Nat) :
    ((UserController.refreshAccessToken env db ct bt now).1.status ≠ 200 ∧
     (UserController.refreshAccessToken env db ct bt now).2 = db) ∨
    (∃ t i a, jsOrTok ct bt = some t ∧
      jsGet t.payload "_id" = JsVal.num i ∧
      findById db i = some a ∧ a.refreshToken = some t ∧
      UserController.refreshAccessToken env db ct bt now =
        (⟨200, "Access token refreshed successfully",
          some (generateAccessToken env a.fields now),
          some (generateRefreshToken env a.fields now),
          some (generateAccessToken env a.fields now),
          some (generateRefreshToken env a.fields now)⟩,
         updateById db a.id ⟨a.id, a.username, a.email, a.fullName,
           a.password,
           some (generateRefreshToken env a.fields now)⟩)) := by
  unfold UserController.refreshAccessToken
  split
  · left; exact ⟨by simp, rfl⟩
  · rename_i t hot
    split
    · left; exact ⟨by simp, rfl⟩
    · rename_i payload hv
      have hpl := jwtVerify_ok_payload t env.refreshTokenSecret now
        payload hv
      subst hpl
      split
      · rename_i i hj
        split
        · left; exact ⟨by simp, rfl⟩
        · rename_i a hf
          split
          · rename_i hc
            right
            refine ⟨t, i, a, hot, hj, hf, hc.symm, ?_⟩
            simp only [save_setRefreshToken]
          · left; exact ⟨by simp, rfl⟩
      · left; exact ⟨by simp, rfl⟩

/-- A member of an updated store carrying the update id is the saved
document. -/
theorem mem_updateById_id (db : DB) (i : Nat) (s : Account)
    (a2 : Account) (ha2 : a2 ∈ updateById db i s) (hid2 : a2.id = i) :
    a2 = s := by
  unfold updateById at ha2
  rcases List.mem_map.mp ha2 with ⟨b, hb, hfb⟩
  by_cases hbi : b.id = i
  · rw [← hfb, if_pos hbi]
  · rw [← hfb, if_neg hbi] at hid2
    exact absurd hid2 hbi

/-- Logout clears the stored refresh token of every account at the
logged-out id. -/
theorem logout_clears (db : DB) (uid : Nat) :
    ∀ a2 ∈ (logOutUser db uid).2, a2.id = uid →
      a2.refreshToken = none := by
  intro a2 ha2 hid2
  unfold logOutUser at ha2
  rcases List.mem_map.mp ha2 with ⟨b, hb, hfb⟩
  by_cases hbi : b.id = uid
  · rw [← hfb, if_pos hbi]
  · rw [← hfb, if_neg hbi] at hid2
    exact absurd hid2 hbi

/-- C2: after any sequence of login, refresh and logout operations of
the user.controller.js revision, at most one token is accepted by the
refresh operation for a given account id; a successful login or refresh
overwrites the stored refresh token of every store entry at the resolved
id with the newly issued token, and logout clears it unconditionally. -/
theorem single_session_invariant (env : Env) (dbInit : DB)
    (ops : List Op) :
    (∀ t1 t2 now1 now2,
      (UserController.refreshAccessToken env (runOps env dbInit ops)
        (some t1) none now1).1.status = 200 →
      (UserController.refreshAccessToken env (runOps env dbInit ops)
        (some t2) none now2).1.status = 200 →
      jsGet t1.payload "_id" = jsGet t2.payload "_id" → t1 = t2) ∧
    (∀ e p now a r,
      (UserController.loginUser env (runOps env dbInit ops) (some e)
        (some p) now).1 = LoginOutcome.resp r →
      r.status = 200 →
      findByEmail (runOps env dbInit ops) e = some a →
      ∀ a2, a2 ∈ (UserController.loginUser env (runOps env dbInit ops)
          (some e) (some p) now).2 → a2.id = a.id →
        a2.refreshToken = some (generateRefreshToken env a.fields now)) ∧
    (∀ ct bt now,
      (UserController.refreshAccessToken env (runOps env dbInit ops)
        ct bt now).1.status = 200 →
      ∃ i a, findById (runOps env dbInit ops) i = some a ∧
        ∀ a2, a2 ∈ (UserController.refreshAccessToken env
            (runOps env dbInit ops) ct bt now).2 → a2.id = a.id →
          a2.refreshToken =
            some (generateRefreshToken env a.fields now)) ∧
    (∀ uid a2, a2 ∈ (logOutUser (runOps env dbInit ops) uid).2 →
      a2.id = uid → a2.refreshToken = none) := by
  refine ⟨?_, ?_, ?_, ?_⟩
  · intro t1 t2 now1 now2 h1 h2 hpl
    rcases refreshAccessToken_cases env (runOps env dbInit ops) (some t1)
        none now1 with ⟨hne, _⟩ | ⟨u1, i1, a1, hot1, hj1, hf1, hr1, _⟩
    · exact absurd h1 hne
    · rcases refreshAccessToken_cases env (runOps env dbInit ops)
          (some t2) none now2 with ⟨hne, _⟩ |
          ⟨u2, i2, a2, hot2, hj2, hf2, hr2, _⟩
      · exact absurd h2 hne
      · have hu1 : u1 = t1 := by cases hot1; rfl
        have hu2 : u2 = t2 := by cases hot2; rfl
        subst hu1; subst hu2
        rw [hj1, hj2] at hpl
        have hi : i1 = i2 := by cases hpl; rfl
        subst hi
        rw [hf1] at hf2
        have ha : a1 = a2 := by cases hf2; rfl
        subst ha
        rw [hr1] at hr2
        cases hr2; rfl
  · intro e p now a r hresp h200 hfind a2 ha2 hid2
    rcases loginUser_cases env (runOps env dbInit ops) (some e) (some p)
        now with ⟨hthrown, _⟩ | ⟨a1, hfind1, heq⟩
    · rw [hthrown] at hresp
      cases hresp
    · have ha1 : a1 = a := Option.some.inj (hfind1.symm.trans hfind)
      subst ha1
      rw [heq] at ha2
      have := mem_updateById_id (runOps env dbInit ops) a1.id _ a2 ha2
        hid2
      rw [this]
  · intro ct bt now h200
    rcases refreshAccessToken_cases env (runOps env dbInit ops) ct bt now
        with ⟨hne, _⟩ | ⟨t, i, a, hot, hj, hf, hr, heq⟩
    · exact absurd h200 hne
    · refine ⟨i, a, hf, ?_⟩
      intro a2 ha2 hid2
      rw [heq] at ha2
      have := mem_updateById_id (runOps env dbInit ops) a.id _ a2 ha2
        hid2
      rw [this]
  · intro uid a2 ha2 hid2
    exact logout_clears (runOps env dbInit ops) uid a2 ha2 hid2

/-- Closed instance of C2: a successful login at the fixture store
leaves the newly issued refresh token as the persisted one. -/
theorem single_session_invariant_witness :
    (⟨1, "alice", "a@example.com", "Alice Doe", argonHash "Secret123",
      some (generateRefreshToken env0 aliceLoggedIn.fields 7)⟩ :
        Account).refreshToken =
      some (generateRefreshToken env0 aliceLoggedIn.fields 7) :=
  (single_session_invariant env0 db0 []).2.1 "a@example.com" "Secret123"
    7 aliceLoggedIn
    ⟨200, "User logged in successfully",
      some (generateAccessToken env0 aliceLoggedIn.fields 7),
      some (generateRefreshToken env0 aliceLoggedIn.fields 7),
      some (withoutKeys
        (Account.fields ⟨1, "alice", "a@example.com", "Alice Doe",
          argonHash "Secret123",
          some (generateRefreshToken env0 aliceLoggedIn.fields 7)⟩)
        ["password", "refreshToken"])⟩
    (by decide) (by decide) (by decide)
    ⟨1, "alice", "a@example.com", "Alice Doe", argonHash "Secret123",
      some (generateRefreshToken env0 aliceLoggedIn.fields 7)⟩
    (by decide) (by decide)

/-- An update preserves a per-id password invariant when the saved
document itself satisfies it. -/
theorem updateById_password_inv (db : DB) (j : Nat) (s : Account)
    (i : Nat) (h : String)
    (hinv : ∀ a ∈ db, a.id = i → a.password = h)
    (hs : s.id = i → s.password = h) :
    ∀ a2 ∈ updateById db j s, a2.id = i → a2.password = h := by
  intro a2 ha2 hid2
  unfold updateById at ha2
  rcases List.mem_map.mp ha2 with ⟨b, hb, hfb⟩
  by_cases hbj : b.id = j
  · rw [← hfb, if_pos hbj] at hid2 ⊢
    exact hs hid2
  · rw [← hfb, if_neg hbj] at hid2 ⊢
    exact hinv b hb hid2

/-- One lifecycle operation preserves the per-id password invariant:
login and refresh save with only the refreshToken path modified, and
logout bypasses the save hook entirely. -/
theorem stepOp_preserves_password (env : Env) (db : DB) (op : Op)
    (i : Nat) (h : String)
    (hinv : ∀ a ∈ db, a.id = i → a.password = h) :
    ∀ a2 ∈ stepOp env db op, a2.id = i → a2.password = h := by
  cases op with
  | login e p now =>
    rcases loginUser_cases env db (some e) (some p) now with
        ⟨_, hdb⟩ | ⟨a, hfind, heq⟩
    · simp only [stepOp]
      rw [hdb]
      exact hinv
    · simp only [stepOp]
      rw [heq]
      have hmem : a ∈ db := List.mem_of_find?_eq_some hfind
      exact updateById_password_inv db a.id _ i h hinv
        (fun hsid => hinv a hmem hsid)
  | refresh ct bt now =>
    rcases refreshAccessToken_cases env db ct bt now with
        ⟨_, hdb⟩ | ⟨t, i2, a, hot, hj, hf, hrt, heq⟩
    · simp only [stepOp]
      rw [hdb]
      exact hinv
    · simp only [stepOp]
      rw [heq]
      have hmem := (findById_mem_id db i2 a hf).1
      exact updateById_password_inv db a.id _ i h hinv
        (fun hsid => hinv a hmem hsid)
  | logout uid =>
    intro a2 ha2 hid2
    simp only [stepOp, logOutUser] at ha2
    rcases List.mem_map.mp ha2 with ⟨b, hb, hfb⟩
    by_cases hbu : b.id = uid
    · rw [← hfb, if_pos hbu] at hid2 ⊢
      exact hinv b hb hid2
    · rw [← hfb, if_neg hbu] at hid2 ⊢
      exact hinv b hb hid2

/-- A sequence of lifecycle operations preserves the per-id password
invariant. -/
theorem runOps_preserves_password (env : Env) (ops : List Op) :
    ∀ db i h, (∀ a ∈ db, a.id = i → a.password = h) →
      ∀ a2 ∈ runOps env db ops, a2.id = i → a2.password = h := by
  induction ops with
  | nil =>
    intro db i h hinv
    exact hinv
  | cons op rest ih =>
    intro db i h hinv
    exact ih (stepOp env db op) i h
      (stepOp_preserves_password env db op i h hinv)

/-- C10: a save that does not touch the password path leaves the stored
hash unchanged, so after any sequence of login, refresh and logout
operations every account keeps its password hash and the original
password still verifies. -/
theorem non_password_save_preserves_hash (env : Env) (db : DB)
    (ops : List Op) (i : Nat) (p : String)
    (hinv : ∀ a ∈ db, a.id = i → a.password = argonHash p) :
    (∀ d : MDoc, d.isModified "password" = false →
      (MDoc.save d).password = d.acc.password) ∧
    (∀ a ∈ runOps env db ops, a.id = i → a.password = argonHash p) ∧
    (∀ a ∈ runOps env db ops, a.id = i → isValidPassword a p = true) := by
  have hrun := runOps_preserves_password env ops db i (argonHash p) hinv
  refine ⟨?_, hrun, ?_⟩
  · intro d hd
    simp [MDoc.save, hd]
  · intro a ha hid
    have hpw := hrun a ha hid
    simp [isValidPassword, argonVerify, hpw]

/-- Closed instance of C10: after a login at the fixture store, the
original password still verifies. -/
theorem non_password_save_preserves_hash_witness :
    isValidPassword aliceLoggedIn "Secret123" = true :=
  (non_password_save_preserves_hash env0 [alice]
    [Op.login "a@example.com" "Secret123" 0] 1 "Secret123"
    (by decide)).2.2 aliceLoggedIn (by decide) (by decide)
